import Mathlib

/-!
Verification of the lammps.js engine control & memory-mapped access layer.

The TypeScript wrapper (`wrapper.ts`, exported as `LammpsWeb`) is embedded
faithfully below.  The compiled WASM engine (`Module.LAMMPSWeb`, the
`InternalLammpsWeb` interface) is not part of the TypeScript sources, so its
operations are modelled from the specification (run-state machine, modifier
registry, arena view provider, facade metadata) and marked as such.
-/

namespace LammpsJs

/-- The cooperative interruption callback: invoked once per timestep (here
indexed by invocation count) and returning `true` to request a pause. -/
def Cb : Type := Nat → Bool

/-- Translation of the default callback `() => false` installed by
`LammpsWeb.create` when the caller provides no `postStepCallback`. -/
def defaultPostStepCallback : Cb := fun _ => false

/-- The recognized initialization options (`LammpsModuleOptions`):
`print`/`printErr` output sinks, the optional cooperative interruption
callback, and an optional pre-fetched engine binary. -/
structure LammpsModuleOptions where
  print : Option (String → Unit) := none
  printErr : Option (String → Unit) := none
  postStepCallback : Option Cb := none
  wasmBinary : Option (List Nat) := none

/-- Run-controller states: Idle, Running, Paused, Cancelled. -/
inductive RunState
  | Idle
  | Running
  | Paused
  | Cancelled
deriving DecidableEq

/-- The fixed enumeration of arena view kinds. -/
inductive ViewKind
  | Positions
  | AtomIds
  | AtomTypes
  | CellMatrix
  | Origin
  | BondPosition1
  | BondPosition2
  | BondDistanceMap
deriving DecidableEq

/-- Modifier kinds: computes, fixes and variables. -/
inductive ModifierKind
  | Compute
  | Fix
  | Variable
deriving DecidableEq

/-- Modelled from the spec: a named engine-computed quantity.  The engine
holds a current value (`engineValue`) and a caller-readable snapshot
(`snapshot`) refreshed by the explicit synchronization primitive. -/
structure Modifier where
  name : String
  engineValue : Int := 0
  snapshot : Int := 0
deriving DecidableEq

/-- Layer-local error taxonomy relevant to registry lookups. -/
inductive LmpError
  | notFoundError
deriving DecidableEq

/-- Modelled from the spec: the engine-owned simulation content that textual
commands mutate (atom data, bond topology, allocator usage, modifier
registries and the arena allocation table). -/
structure SimCore where
  numAtoms : Nat := 0
  bondCount : Nat := 0
  memoryUsage : Nat := 0
  computes : List Modifier := []
  fixes : List Modifier := []
  vars : List Modifier := []
  arena : List (ViewKind × Nat × Nat) := []
deriving DecidableEq

/-- Modelled from the spec: the out-of-scope collaborators of the engine.
`interp` is the command interpreter (arbitrary textual commands mutating the
simulation content, failures reported as string messages, never thrown),
`finterp` the file interface, and `exceptions` the exception message lookup
used by `getExceptionMessage`. -/
structure EngineEnv where
  interp : String → SimCore → Except String SimCore
  finterp : String → SimCore → Except String SimCore
  exceptions : Int → String

/-- Modelled from the spec: the state of one live engine instance
(`Module.LAMMPSWeb`), composing the run controller, the step counters, the
facade metadata and the simulation content. -/
structure EngineState where
  env : EngineEnv
  core : SimCore
  runState : RunState
  currentTimestep : Nat
  runTimestepsCompleted : Nat
  runTimestepsTotal : Nat
  timestepsPerSecond : Nat
  cpuRemain : Nat
  whichFlag : Nat
  syncFrequency : Int
  buildNeighborlist : Bool
  errorMessage : String
  lastCommand : String
  cb : Cb
  cbCount : Nat

namespace InternalLammpsWeb

/-- Modelled from the spec: a freshly constructed engine instance; the run
controller starts Idle, counters are zero, registries empty and the arena
unallocated.  The engine invokes the process-wide cooperative callback `cb`. -/
def init (env : EngineEnv) (cb : Cb) : EngineState where
  env := env
  core := {}
  runState := RunState.Idle
  currentTimestep := 0
  runTimestepsCompleted := 0
  runTimestepsTotal := 0
  timestepsPerSecond := 0
  cpuRemain := 0
  whichFlag := 0
  syncFrequency := 1
  buildNeighborlist := true
  errorMessage := ""
  lastCommand := ""
  cb := cb
  cbCount := 0

/-- Modelled from the spec: `start()` transitions Idle/Cancelled to Running,
resets the run-scoped counters and returns `true`; if already Running (or
Paused) it fails silently returning `false` and leaves state unchanged. -/
def start (s : EngineState) : EngineState × Bool :=
  match s.runState with
  | RunState.Idle =>
      ({ s with runState := RunState.Running, runTimestepsCompleted := 0,
                runTimestepsTotal := 0 }, true)
  | RunState.Cancelled =>
      ({ s with runState := RunState.Running, runTimestepsCompleted := 0,
                runTimestepsTotal := 0 }, true)
  | _ => (s, false)

/-- Modelled from the spec: `stop()` transitions Running/Paused to Idle and
returns `true`; otherwise it reports failure via the return value and leaves
state unchanged. -/
def stop (s : EngineState) : EngineState × Bool :=
  match s.runState with
  | RunState.Running => ({ s with runState := RunState.Idle }, true)
  | RunState.Paused => ({ s with runState := RunState.Idle }, true)
  | _ => (s, false)

/-- Modelled from the spec: `step()` is valid while Running (or Paused with
manual stepping): it advances the engine by exactly one timestep, updates the
step counters and invokes the cooperative interruption point exactly once;
`true` from the callback requests a pause after the current step.  Calling
`step()` while Idle (or Cancelled) is a no-op raising no exception. -/
def step (s : EngineState) : EngineState :=
  match s.runState with
  | RunState.Running =>
      let pauseRequested := s.cb s.cbCount
      { s with currentTimestep := s.currentTimestep + 1,
               runTimestepsCompleted := s.runTimestepsCompleted + 1,
               cbCount := s.cbCount + 1,
               runState := if pauseRequested then RunState.Paused else RunState.Running }
  | RunState.Paused =>
      { s with currentTimestep := s.currentTimestep + 1,
               runTimestepsCompleted := s.runTimestepsCompleted + 1,
               cbCount := s.cbCount + 1 }
  | _ => s

/-- Modelled from the spec: `cancel()` moves any non-Idle state to Cancelled
(advisory, latched); `cancel()` when already Idle is a no-op. -/
def cancel (s : EngineState) : EngineState :=
  match s.runState with
  | RunState.Idle => s
  | _ => { s with runState := RunState.Cancelled }

/-- Modelled from the spec: `setPaused` toggles Running and Paused; in any
other state it leaves the run state unchanged. -/
def setPaused (s : EngineState) (paused : Bool) : EngineState :=
  if paused then
    match s.runState with
    | RunState.Running => { s with runState := RunState.Paused }
    | _ => s
  else
    match s.runState with
    | RunState.Paused => { s with runState := RunState.Running }
    | _ => s

/-- Modelled from the spec: `getIsRunning()` reports whether the run
controller is in the Running state. -/
def getIsRunning (s : EngineState) : Bool :=
  s.runState = RunState.Running

def getNumAtoms (s : EngineState) : Nat := s.core.numAtoms

def getTimesteps (s : EngineState) : Nat := s.currentTimestep

def getRunTimesteps (s : EngineState) : Nat := s.runTimestepsCompleted

def getRunTotalTimesteps (s : EngineState) : Nat := s.runTimestepsTotal

def getTimestepsPerSecond (s : EngineState) : Nat := s.timestepsPerSecond

def getCPURemain (s : EngineState) : Nat := s.cpuRemain

def getWhichFlag (s : EngineState) : Nat := s.whichFlag

def getMemoryUsage (s : EngineState) : Nat := s.core.memoryUsage

def getErrorMessage (s : EngineState) : String := s.errorMessage

def getLastCommand (s : EngineState) : String := s.lastCommand

def getExceptionMessage (s : EngineState) (address : Int) : String :=
  s.env.exceptions address

def setSyncFrequency (s : EngineState) (every : Int) : EngineState :=
  { s with syncFrequency := every }

def setBuildNeighborlist (s : EngineState) (b : Bool) : EngineState :=
  { s with buildNeighborlist := b }

/-- Modelled from the spec: `runCommand(text)` forwards the text verbatim to
the engine's parser and returns void (the function is total: it never throws a
structured exception).  On failure the engine's prior simulation content is
left intact and the failure is surfaced only through `getErrorMessage()` and
`getLastCommand()`. -/
def runCommand (s : EngineState) (text : String) : EngineState :=
  match s.env.interp text s.core with
  | Except.ok c => { s with core := c, lastCommand := text }
  | Except.error msg => { s with lastCommand := text, errorMessage := msg }

/-- Modelled from the spec: `runFile(path)` reads and executes commands from
the virtual file store; failures are surfaced like `runCommand` failures. -/
def runFile (s : EngineState) (path : String) : EngineState :=
  match s.env.finterp path s.core with
  | Except.ok c => { s with core := c, lastCommand := path }
  | Except.error msg => { s with lastCommand := path, errorMessage := msg }

/-- Modelled from the spec: `listNames(kind)` enumerates the currently
defined modifiers of a registry in registration order. -/
def listNames (ms : List Modifier) : List String := ms.map Modifier.name

/-- Modelled from the spec: `resolve(kind, name)` yields the modifier handle,
failing fast with `NotFoundError` when no modifier of that name exists in the
registry at call time. -/
def resolve (ms : List Modifier) (name : String) : Except LmpError Modifier :=
  match ms.find? (fun m => m.name == name) with
  | some m => Except.ok m
  | none => Except.error LmpError.notFoundError

def getCompute (s : EngineState) (name : String) : Except LmpError Modifier :=
  resolve s.core.computes name

def getComputeNames (s : EngineState) : List String := listNames s.core.computes

def getFix (s : EngineState) (name : String) : Except LmpError Modifier :=
  resolve s.core.fixes name

def getFixNames (s : EngineState) : List String := listNames s.core.fixes

def getVariable (s : EngineState) (name : String) : Except LmpError Modifier :=
  resolve s.core.vars name

def getVariableNames (s : EngineState) : List String := listNames s.core.vars

/-- Kind-indexed dispatch over the three resolvers. -/
def getModifier (s : EngineState) (kind : ModifierKind) (name : String) :
    Except LmpError Modifier :=
  match kind with
  | ModifierKind.Compute => getCompute s name
  | ModifierKind.Fix => getFix s name
  | ModifierKind.Variable => getVariable s name

/-- Kind-indexed dispatch over the three name enumerations. -/
def getModifierNames (s : EngineState) (kind : ModifierKind) : List String :=
  match kind with
  | ModifierKind.Compute => getComputeNames s
  | ModifierKind.Fix => getFixNames s
  | ModifierKind.Variable => getVariableNames s

/-- Modelled from the spec: removal of a named modifier from a registry (the
engine removes modifiers through textual commands such as `uncompute`). -/
def removeFromRegistry (ms : List Modifier) (name : String) : List Modifier :=
  ms.filter (fun m => m.name != name)

/-- Removal of the named modifier of the given kind from the engine. -/
def removeModifier (s : EngineState) (kind : ModifierKind) (name : String) :
    EngineState :=
  match kind with
  | ModifierKind.Compute =>
      { s with core := { s.core with computes := removeFromRegistry s.core.computes name } }
  | ModifierKind.Fix =>
      { s with core := { s.core with fixes := removeFromRegistry s.core.fixes name } }
  | ModifierKind.Variable =>
      { s with core := { s.core with vars := removeFromRegistry s.core.vars name } }

/-- Modelled from the spec: `synchronize(kind)` pushes the engine's current
values for all modifiers of that kind into the caller-readable snapshot. -/
def syncRegistry (ms : List Modifier) : List Modifier :=
  ms.map (fun m => { m with snapshot := m.engineValue })

def syncComputes (s : EngineState) : EngineState :=
  { s with core := { s.core with computes := syncRegistry s.core.computes } }

def syncFixes (s : EngineState) : EngineState :=
  { s with core := { s.core with fixes := syncRegistry s.core.fixes } }

def syncVariables (s : EngineState) : EngineState :=
  { s with core := { s.core with vars := syncRegistry s.core.vars } }

/-- Lookup of the arena allocation table: the (offset, element count) pair
currently allocated for a view kind, if any. -/
def arenaLookup (arena : List (ViewKind × Nat × Nat)) (kind : ViewKind) :
    Option (Nat × Nat) :=
  match arena.find? (fun e => e.1 == kind) with
  | some e => some e.2
  | none => none

/-- First free offset past every allocated region (a bump allocator model). -/
def arenaEnd : List (ViewKind × Nat × Nat) → Nat
  | [] => 0
  | e :: rest => max (e.2.1 + e.2.2) (arenaEnd rest)

/-- Allocation of a region of `count` elements for a view kind, replacing any
previous allocation for the same kind. -/
def arenaAlloc (arena : List (ViewKind × Nat × Nat)) (kind : ViewKind)
    (count : Nat) : List (ViewKind × Nat × Nat) :=
  (kind, arenaEnd arena, count) :: arena.filter (fun e => e.1 != kind)

/-- Modelled from the spec: `resolveView(kind)` returns the (offset, element
count) of the region currently allocated for the kind.  The function is
total: requesting a kind the engine has not allocated (for example bond
pointers before any bonds exist) yields the empty view with count 0, never a
fault. -/
def resolveView (s : EngineState) (kind : ViewKind) : Nat × Nat :=
  (arenaLookup s.core.arena kind).getD (0, 0)

def getPositionsPointer (s : EngineState) : Nat :=
  (resolveView s ViewKind.Positions).1

def getIdPointer (s : EngineState) : Nat :=
  (resolveView s ViewKind.AtomIds).1

def getTypePointer (s : EngineState) : Nat :=
  (resolveView s ViewKind.AtomTypes).1

def getCellMatrixPointer (s : EngineState) : Nat :=
  (resolveView s ViewKind.CellMatrix).1

def getOrigoPointer (s : EngineState) : Nat :=
  (resolveView s ViewKind.Origin).1

def getBondsPosition1Pointer (s : EngineState) : Nat :=
  (resolveView s ViewKind.BondPosition1).1

def getBondsPosition2Pointer (s : EngineState) : Nat :=
  (resolveView s ViewKind.BondPosition2).1

def getBondsDistanceMapPointer (s : EngineState) : Nat :=
  (resolveView s ViewKind.BondDistanceMap).1

/-- Modelled from the spec: `computeBonds()` computes the bond topology,
allocating the bond regions of the arena, and returns the bond count. -/
def computeBonds (s : EngineState) : EngineState × Nat :=
  let a1 := arenaAlloc s.core.arena ViewKind.BondPosition1 (3 * s.core.bondCount)
  let a2 := arenaAlloc a1 ViewKind.BondPosition2 (3 * s.core.bondCount)
  let a3 := arenaAlloc a2 ViewKind.BondDistanceMap s.core.bondCount
  ({ s with core := { s.core with arena := a3 } }, s.core.bondCount)

/-- Modelled from the spec: `computeParticles()` refreshes the particle data,
allocating the particle regions of the arena, and returns the atom count. -/
def computeParticles (s : EngineState) : EngineState × Nat :=
  let n := s.core.numAtoms
  let a1 := arenaAlloc s.core.arena ViewKind.Positions (3 * n)
  let a2 := arenaAlloc a1 ViewKind.AtomIds n
  let a3 := arenaAlloc a2 ViewKind.AtomTypes n
  let a4 := arenaAlloc a3 ViewKind.CellMatrix 9
  let a5 := arenaAlloc a4 ViewKind.Origin 3
  ({ s with core := { s.core with arena := a5 } }, n)

end InternalLammpsWeb

/-- The per-process global environment (`globalThis`): the single
process-wide `postStepCallback` slot and the engine instances constructed so
far in this process. -/
structure GlobalState where
  postStepCallback : Option Cb := none
  instances : List EngineState := []

/-- The `LammpsWeb` wrapper class: its only state is the reference to the
wrapped `InternalLammpsWeb` instance (the private constructor field). -/
structure LammpsWeb where
  inst : EngineState

namespace LammpsWeb

/-- `LammpsWeb.create(options)` from `wrapper.ts`: installs the global
`postStepCallback` only when none is present (`options?.postStepCallback ||
(() => false)`), constructs a fresh engine instance with
`new Module.LAMMPSWeb()`, initializes it with `instance.start()`, and wraps
it.  The state threads the process-global environment explicitly; the engine
environment `env` stands for the loaded WASM module internals. -/
def create (env : EngineEnv) (g : GlobalState) (options : Option LammpsModuleOptions) :
    GlobalState × LammpsWeb :=
  let effectiveCb : Cb :=
    (options.bind LammpsModuleOptions.postStepCallback).getD defaultPostStepCallback
  let g1 : GlobalState :=
    match g.postStepCallback with
    | some _ => g
    | none => { g with postStepCallback := some effectiveCb }
  let inst0 := InternalLammpsWeb.init env (g1.postStepCallback.getD defaultPostStepCallback)
  let inst1 := (InternalLammpsWeb.start inst0).1
  ({ g1 with instances := g1.instances ++ [inst1] }, ⟨inst1⟩)

/-- Iterated `create` calls in one process (only the global state is kept). -/
def createMany (env : EngineEnv) (g : GlobalState)
    (optss : List (Option LammpsModuleOptions)) : GlobalState :=
  optss.foldl (fun acc options => (create env acc options).1) g

def getNumAtoms (w : LammpsWeb) : Nat :=
  InternalLammpsWeb.getNumAtoms w.inst

def setSyncFrequency (w : LammpsWeb) (every : Int) : LammpsWeb :=
  ⟨InternalLammpsWeb.setSyncFrequency w.inst every⟩

def setBuildNeighborlist (w : LammpsWeb) (buildNeighborlist : Bool) : LammpsWeb :=
  ⟨InternalLammpsWeb.setBuildNeighborlist w.inst buildNeighborlist⟩

def getIsRunning (w : LammpsWeb) : Bool :=
  InternalLammpsWeb.getIsRunning w.inst

def getErrorMessage (w : LammpsWeb) : String :=
  InternalLammpsWeb.getErrorMessage w.inst

def getLastCommand (w : LammpsWeb) : String :=
  InternalLammpsWeb.getLastCommand w.inst

def getTimesteps (w : LammpsWeb) : Nat :=
  InternalLammpsWeb.getTimesteps w.inst

def getRunTimesteps (w : LammpsWeb) : Nat :=
  InternalLammpsWeb.getRunTimesteps w.inst

def getRunTotalTimesteps (w : LammpsWeb) : Nat :=
  InternalLammpsWeb.getRunTotalTimesteps w.inst

def getTimestepsPerSecond (w : LammpsWeb) : Nat :=
  InternalLammpsWeb.getTimestepsPerSecond w.inst

def getCPURemain (w : LammpsWeb) : Nat :=
  InternalLammpsWeb.getCPURemain w.inst

def getWhichFlag (w : LammpsWeb) : Nat :=
  InternalLammpsWeb.getWhichFlag w.inst

def getCompute (w : LammpsWeb) (name : String) : Except LmpError Modifier :=
  InternalLammpsWeb.getCompute w.inst name

def getComputeNames (w : LammpsWeb) : List String :=
  InternalLammpsWeb.getComputeNames w.inst

def getFix (w : LammpsWeb) (name : String) : Except LmpError Modifier :=
  InternalLammpsWeb.getFix w.inst name

def getFixNames (w : LammpsWeb) : List String :=
  InternalLammpsWeb.getFixNames w.inst

def getVariable (w : LammpsWeb) (name : String) : Except LmpError Modifier :=
  InternalLammpsWeb.getVariable w.inst name

def getVariableNames (w : LammpsWeb) : List String :=
  InternalLammpsWeb.getVariableNames w.inst

def syncComputes (w : LammpsWeb) : LammpsWeb :=
  ⟨InternalLammpsWeb.syncComputes w.inst⟩

def syncFixes (w : LammpsWeb) : LammpsWeb :=
  ⟨InternalLammpsWeb.syncFixes w.inst⟩

def syncVariables (w : LammpsWeb) : LammpsWeb :=
  ⟨InternalLammpsWeb.syncVariables w.inst⟩

def getMemoryUsage (w : LammpsWeb) : Nat :=
  InternalLammpsWeb.getMemoryUsage w.inst

def getPositionsPointer (w : LammpsWeb) : Nat :=
  InternalLammpsWeb.getPositionsPointer w.inst

def getIdPointer (w : LammpsWeb) : Nat :=
  InternalLammpsWeb.getIdPointer w.inst

def getTypePointer (w : LammpsWeb) : Nat :=
  InternalLammpsWeb.getTypePointer w.inst

def getCellMatrixPointer (w : LammpsWeb) : Nat :=
  InternalLammpsWeb.getCellMatrixPointer w.inst

def getOrigoPointer (w : LammpsWeb) : Nat :=
  InternalLammpsWeb.getOrigoPointer w.inst

def getBondsPosition1Pointer (w : LammpsWeb) : Nat :=
  InternalLammpsWeb.getBondsPosition1Pointer w.inst

def getBondsPosition2Pointer (w : LammpsWeb) : Nat :=
  InternalLammpsWeb.getBondsPosition2Pointer w.inst

def getBondsDistanceMapPointer (w : LammpsWeb) : Nat :=
  InternalLammpsWeb.getBondsDistanceMapPointer w.inst

def getExceptionMessage (w : LammpsWeb) (address : Int) : String :=
  InternalLammpsWeb.getExceptionMessage w.inst address

def step (w : LammpsWeb) : LammpsWeb :=
  ⟨InternalLammpsWeb.step w.inst⟩

def stop (w : LammpsWeb) : LammpsWeb × Bool :=
  let r := InternalLammpsWeb.stop w.inst
  (⟨r.1⟩, r.2)

def start (w : LammpsWeb) : LammpsWeb × Bool :=
  let r := InternalLammpsWeb.start w.inst
  (⟨r.1⟩, r.2)

def cancel (w : LammpsWeb) : LammpsWeb :=
  ⟨InternalLammpsWeb.cancel w.inst⟩

def setPaused (w : LammpsWeb) (paused : Bool) : LammpsWeb :=
  ⟨InternalLammpsWeb.setPaused w.inst paused⟩

def runCommand (w : LammpsWeb) (command : String) : LammpsWeb :=
  ⟨InternalLammpsWeb.runCommand w.inst command⟩

def runFile (w : LammpsWeb) (path : String) : LammpsWeb :=
  ⟨InternalLammpsWeb.runFile w.inst path⟩

def computeBonds (w : LammpsWeb) : LammpsWeb × Nat :=
  let r := InternalLammpsWeb.computeBonds w.inst
  (⟨r.1⟩, r.2)

def computeParticles (w : LammpsWeb) : LammpsWeb × Nat :=
  let r := InternalLammpsWeb.computeParticles w.inst
  (⟨r.1⟩, r.2)

end LammpsWeb

/-- One invocation of a public instance method of the `LammpsWeb` wrapper,
with its arguments; the constructors list every instance method of
`wrapper.ts` in source order. -/
inductive LmpOp
  | getNumAtoms
  | setSyncFrequency (every : Int)
  | setBuildNeighborlist (buildNeighborlist : Bool)
  | getIsRunning
  | getErrorMessage
  | getLastCommand
  | getTimesteps
  | getRunTimesteps
  | getRunTotalTimesteps
  | getTimestepsPerSecond
  | getCPURemain
  | getWhichFlag
  | getCompute (name : String)
  | getComputeNames
  | getFix (name : String)
  | getFixNames
  | getVariable (name : String)
  | getVariableNames
  | syncComputes
  | syncFixes
  | syncVariables
  | getMemoryUsage
  | getPositionsPointer
  | getIdPointer
  | getTypePointer
  | getCellMatrixPointer
  | getOrigoPointer
  | getBondsPosition1Pointer
  | getBondsPosition2Pointer
  | getBondsDistanceMapPointer
  | getExceptionMessage (address : Int)
  | step
  | stop
  | start
  | cancel
  | setPaused (paused : Bool)
  | runCommand (command : String)
  | runFile (path : String)
  | computeBonds
  | computeParticles

/-- The observable result of one method invocation. -/
inductive LmpOut
  | unit
  | num (v : Nat)
  | flag (b : Bool)
  | str (s : String)
  | modifierResult (m : Except LmpError Modifier)
  | names (ns : List String)

/-- Modelled from the spec: the observable behaviour of the wrapped
`InternalLammpsWeb` instance itself — each operation applied directly to the
engine state, yielding the successor state and the observable output.  This
is the reference against which the wrapper is compared. -/
def InternalLammpsWeb.exec (s : EngineState) : LmpOp → EngineState × LmpOut
  | LmpOp.getNumAtoms => (s, LmpOut.num (InternalLammpsWeb.getNumAtoms s))
  | LmpOp.setSyncFrequency every => (InternalLammpsWeb.setSyncFrequency s every, LmpOut.unit)
  | LmpOp.setBuildNeighborlist b => (InternalLammpsWeb.setBuildNeighborlist s b, LmpOut.unit)
  | LmpOp.getIsRunning => (s, LmpOut.flag (InternalLammpsWeb.getIsRunning s))
  | LmpOp.getErrorMessage => (s, LmpOut.str (InternalLammpsWeb.getErrorMessage s))
  | LmpOp.getLastCommand => (s, LmpOut.str (InternalLammpsWeb.getLastCommand s))
  | LmpOp.getTimesteps => (s, LmpOut.num (InternalLammpsWeb.getTimesteps s))
  | LmpOp.getRunTimesteps => (s, LmpOut.num (InternalLammpsWeb.getRunTimesteps s))
  | LmpOp.getRunTotalTimesteps => (s, LmpOut.num (InternalLammpsWeb.getRunTotalTimesteps s))
  | LmpOp.getTimestepsPerSecond => (s, LmpOut.num (InternalLammpsWeb.getTimestepsPerSecond s))
  | LmpOp.getCPURemain => (s, LmpOut.num (InternalLammpsWeb.getCPURemain s))
  | LmpOp.getWhichFlag => (s, LmpOut.num (InternalLammpsWeb.getWhichFlag s))
  | LmpOp.getCompute name => (s, LmpOut.modifierResult (InternalLammpsWeb.getCompute s name))
  | LmpOp.getComputeNames => (s, LmpOut.names (InternalLammpsWeb.getComputeNames s))
  | LmpOp.getFix name => (s, LmpOut.modifierResult (InternalLammpsWeb.getFix s name))
  | LmpOp.getFixNames => (s, LmpOut.names (InternalLammpsWeb.getFixNames s))
  | LmpOp.getVariable name => (s, LmpOut.modifierResult (InternalLammpsWeb.getVariable s name))
  | LmpOp.getVariableNames => (s, LmpOut.names (InternalLammpsWeb.getVariableNames s))
  | LmpOp.syncComputes => (InternalLammpsWeb.syncComputes s, LmpOut.unit)
  | LmpOp.syncFixes => (InternalLammpsWeb.syncFixes s, LmpOut.unit)
  | LmpOp.syncVariables => (InternalLammpsWeb.syncVariables s, LmpOut.unit)
  | LmpOp.getMemoryUsage => (s, LmpOut.num (InternalLammpsWeb.getMemoryUsage s))
  | LmpOp.getPositionsPointer => (s, LmpOut.num (InternalLammpsWeb.getPositionsPointer s))
  | LmpOp.getIdPointer => (s, LmpOut.num (InternalLammpsWeb.getIdPointer s))
  | LmpOp.getTypePointer => (s, LmpOut.num (InternalLammpsWeb.getTypePointer s))
  | LmpOp.getCellMatrixPointer => (s, LmpOut.num (InternalLammpsWeb.getCellMatrixPointer s))
  | LmpOp.getOrigoPointer => (s, LmpOut.num (InternalLammpsWeb.getOrigoPointer s))
  | LmpOp.getBondsPosition1Pointer => (s, LmpOut.num (InternalLammpsWeb.getBondsPosition1Pointer s))
  | LmpOp.getBondsPosition2Pointer => (s, LmpOut.num (InternalLammpsWeb.getBondsPosition2Pointer s))
  | LmpOp.getBondsDistanceMapPointer => (s, LmpOut.num (InternalLammpsWeb.getBondsDistanceMapPointer s))
  | LmpOp.getExceptionMessage address => (s, LmpOut.str (InternalLammpsWeb.getExceptionMessage s address))
  | LmpOp.step => (InternalLammpsWeb.step s, LmpOut.unit)
  | LmpOp.stop => ((InternalLammpsWeb.stop s).1, LmpOut.flag (InternalLammpsWeb.stop s).2)
  | LmpOp.start => ((InternalLammpsWeb.start s).1, LmpOut.flag (InternalLammpsWeb.start s).2)
  | LmpOp.cancel => (InternalLammpsWeb.cancel s, LmpOut.unit)
  | LmpOp.setPaused paused => (InternalLammpsWeb.setPaused s paused, LmpOut.unit)
  | LmpOp.runCommand command => (InternalLammpsWeb.runCommand s command, LmpOut.unit)
  | LmpOp.runFile path => (InternalLammpsWeb.runFile s path, LmpOut.unit)
  | LmpOp.computeBonds => ((InternalLammpsWeb.computeBonds s).1, LmpOut.num (InternalLammpsWeb.computeBonds s).2)
  | LmpOp.computeParticles => ((InternalLammpsWeb.computeParticles s).1, LmpOut.num (InternalLammpsWeb.computeParticles s).2)

/-- One method invocation on the wrapper, dispatching to the wrapper method
definitions translated from `wrapper.ts`. -/
def LammpsWeb.execMethod (w : LammpsWeb) : LmpOp → LammpsWeb × LmpOut
  | LmpOp.getNumAtoms => (w, LmpOut.num w.getNumAtoms)
  | LmpOp.setSyncFrequency every => (w.setSyncFrequency every, LmpOut.unit)
  | LmpOp.setBuildNeighborlist b => (w.setBuildNeighborlist b, LmpOut.unit)
  | LmpOp.getIsRunning => (w, LmpOut.flag w.getIsRunning)
  | LmpOp.getErrorMessage => (w, LmpOut.str w.getErrorMessage)
  | LmpOp.getLastCommand => (w, LmpOut.str w.getLastCommand)
  | LmpOp.getTimesteps => (w, LmpOut.num w.getTimesteps)
  | LmpOp.getRunTimesteps => (w, LmpOut.num w.getRunTimesteps)
  | LmpOp.getRunTotalTimesteps => (w, LmpOut.num w.getRunTotalTimesteps)
  | LmpOp.getTimestepsPerSecond => (w, LmpOut.num w.getTimestepsPerSecond)
  | LmpOp.getCPURemain => (w, LmpOut.num w.getCPURemain)
  | LmpOp.getWhichFlag => (w, LmpOut.num w.getWhichFlag)
  | LmpOp.getCompute name => (w, LmpOut.modifierResult (w.getCompute name))
  | LmpOp.getComputeNames => (w, LmpOut.names w.getComputeNames)
  | LmpOp.getFix name => (w, LmpOut.modifierResult (w.getFix name))
  | LmpOp.getFixNames => (w, LmpOut.names w.getFixNames)
  | LmpOp.getVariable name => (w, LmpOut.modifierResult (w.getVariable name))
  | LmpOp.getVariableNames => (w, LmpOut.names w.getVariableNames)
  | LmpOp.syncComputes => (w.syncComputes, LmpOut.unit)
  | LmpOp.syncFixes => (w.syncFixes, LmpOut.unit)
  | LmpOp.syncVariables => (w.syncVariables, LmpOut.unit)
  | LmpOp.getMemoryUsage => (w, LmpOut.num w.getMemoryUsage)
  | LmpOp.getPositionsPointer => (w, LmpOut.num w.getPositionsPointer)
  | LmpOp.getIdPointer => (w, LmpOut.num w.getIdPointer)
  | LmpOp.getTypePointer => (w, LmpOut.num w.getTypePointer)
  | LmpOp.getCellMatrixPointer => (w, LmpOut.num w.getCellMatrixPointer)
  | LmpOp.getOrigoPointer => (w, LmpOut.num w.getOrigoPointer)
  | LmpOp.getBondsPosition1Pointer => (w, LmpOut.num w.getBondsPosition1Pointer)
  | LmpOp.getBondsPosition2Pointer => (w, LmpOut.num w.getBondsPosition2Pointer)
  | LmpOp.getBondsDistanceMapPointer => (w, LmpOut.num w.getBondsDistanceMapPointer)
  | LmpOp.getExceptionMessage address => (w, LmpOut.str (w.getExceptionMessage address))
  | LmpOp.step => (w.step, LmpOut.unit)
  | LmpOp.stop => ((w.stop).1, LmpOut.flag (w.stop).2)
  | LmpOp.start => ((w.start).1, LmpOut.flag (w.start).2)
  | LmpOp.cancel => (w.cancel, LmpOut.unit)
  | LmpOp.setPaused paused => (w.setPaused paused, LmpOut.unit)
  | LmpOp.runCommand command => (w.runCommand command, LmpOut.unit)
  | LmpOp.runFile path => (w.runFile path, LmpOut.unit)
  | LmpOp.computeBonds => ((w.computeBonds).1, LmpOut.num (w.computeBonds).2)
  | LmpOp.computeParticles => ((w.computeParticles).1, LmpOut.num (w.computeParticles).2)

/-- A whole session on the wrapper: execute a list of method invocations,
collecting the observable outputs. -/
def LammpsWeb.runOps (w : LammpsWeb) : List LmpOp → LammpsWeb × List LmpOut
  | [] => (w, [])
  | op :: ops =>
      let r := w.execMethod op
      let rest := LammpsWeb.runOps r.1 ops
      (rest.1, r.2 :: rest.2)

/-- Modelled from the spec: the same session run directly on the wrapped
engine instance, with no wrapper in between. -/
def InternalLammpsWeb.runOps (s : EngineState) : List LmpOp → EngineState × List LmpOut
  | [] => (s, [])
  | op :: ops =>
      let r := InternalLammpsWeb.exec s op
      let rest := InternalLammpsWeb.runOps r.1 ops
      (rest.1, r.2 :: rest.2)

/-- Iterated manual stepping: `step()` called `n` times in sequence. -/
def stepN : Nat → EngineState → EngineState
  | 0, s => s
  | n + 1, s => stepN n (InternalLammpsWeb.step s)

/-- A concrete engine environment whose interpreter accepts every command. -/
def env0 : EngineEnv where
  interp := fun _ c => Except.ok c
  finterp := fun _ c => Except.ok c
  exceptions := fun _ => ""

/-- A concrete engine environment whose interpreter rejects every command
with a fixed engine-reported message. -/
def envFail : EngineEnv where
  interp := fun _ _ => Except.error "ERROR: unknown command"
  finterp := fun _ c => Except.ok c
  exceptions := fun _ => ""

/-- A concrete cooperative callback requesting a pause on its 5th invocation. -/
def cb1 : Cb := fun n => n = 4

/-- Concrete creation options carrying `cb1` as `postStepCallback`. -/
def opts1 : LammpsModuleOptions := { postStepCallback := some cb1 }

/-- A fresh process-global state: no callback registered, no instances. -/
def g0 : GlobalState := {}

/-- A concrete engine instance sitting in the Running state. -/
def sRun : EngineState :=
  { InternalLammpsWeb.init env0 defaultPostStepCallback with runState := RunState.Running }

/-- A concrete engine instance sitting in the Idle state. -/
def sIdle : EngineState := InternalLammpsWeb.init env0 defaultPostStepCallback

/-- A concrete engine instance (Idle) whose interpreter rejects commands. -/
def sFail : EngineState := InternalLammpsWeb.init envFail defaultPostStepCallback

theorem create_slot_eq (env : EngineEnv) (g : GlobalState)
    (options : Option LammpsModuleOptions) :
    (LammpsWeb.create env g options).1.postStepCallback =
      match g.postStepCallback with
      | some c => some c
      | none =>
          some ((options.bind LammpsModuleOptions.postStepCallback).getD
                  defaultPostStepCallback) := by
  cases h : g.postStepCallback <;> simp [LammpsWeb.create, h]

theorem createMany_keeps_slot (env : EngineEnv) (c : Cb)
    (optss : List (Option LammpsModuleOptions)) :
    ∀ g : GlobalState, g.postStepCallback = some c →
      (LammpsWeb.createMany env g optss).postStepCallback = some c := by
  induction optss with
  | nil => intro g hg; simpa [LammpsWeb.createMany] using hg
  | cons o os ih =>
      intro g hg
      have h1 : (LammpsWeb.create env g o).1.postStepCallback = some c := by
        rw [create_slot_eq, hg]
      simpa [LammpsWeb.createMany] using ih _ h1

/-- Claim C1: across any sequence of `LammpsWeb.create` calls in one process,
only the first call that finds no global `postStepCallback` installs one (the
caller's callback, or the default), and every later `create` call leaves the
registered callback unchanged — the first registration wins. -/
theorem create_first_registration_wins (env : EngineEnv) :
    (∀ (g : GlobalState) (o : Option LammpsModuleOptions)
        (os : List (Option LammpsModuleOptions)),
        g.postStepCallback = none →
        (LammpsWeb.createMany env g (o :: os)).postStepCallback =
          some ((o.bind LammpsModuleOptions.postStepCallback).getD
                  defaultPostStepCallback)) ∧
    (∀ (g : GlobalState) (c : Cb) (os : List (Option LammpsModuleOptions)),
        g.postStepCallback = some c →
        (LammpsWeb.createMany env g os).postStepCallback = some c) := by
  constructor
  · intro g o os hg
    have h1 : (LammpsWeb.create env g o).1.postStepCallback =
        some ((o.bind LammpsModuleOptions.postStepCallback).getD
                defaultPostStepCallback) := by
      rw [create_slot_eq, hg]
    simpa [LammpsWeb.createMany] using createMany_keeps_slot env _ os _ h1
  · intro g c os hg
    exact createMany_keeps_slot env c os g hg

/-- Witness for C1: a first call providing `cb1` wins over a later call, and
a pre-registered `cb1` survives a later call. -/
theorem create_first_registration_wins_witness :
    (LammpsWeb.createMany env0 g0 [some opts1, none]).postStepCallback = some cb1 ∧
    (LammpsWeb.createMany env0
        { g0 with postStepCallback := some cb1 } [none]).postStepCallback = some cb1 :=
  ⟨(create_first_registration_wins env0).1 g0 (some opts1) [none] rfl,
   (create_first_registration_wins env0).2 _ cb1 [none] rfl⟩

/-- Claim C2: when `create` is called with no options, or with
`options.postStepCallback` absent, and no global callback was previously
registered, the registered cooperative interruption callback is the default
one, which returns `false` on every invocation — it never requests a pause. -/
theorem create_default_callback_never_pauses (env : EngineEnv) (g : GlobalState)
    (options : Option LammpsModuleOptions)
    (h1 : g.postStepCallback = none)
    (h2 : options.bind LammpsModuleOptions.postStepCallback = none) :
    (LammpsWeb.create env g options).1.postStepCallback = some defaultPostStepCallback ∧
    ∀ n, defaultPostStepCallback n = false := by
  refine ⟨?_, fun n => rfl⟩
  rw [create_slot_eq, h1, h2]
  rfl

/-- Witness for C2 at `options = none` on a fresh global state. -/
theorem create_default_callback_never_pauses_witness :
    (LammpsWeb.create env0 g0 none).1.postStepCallback = some defaultPostStepCallback ∧
    defaultPostStepCallback 4 = false :=
  ⟨(create_default_callback_never_pauses env0 g0 none rfl rfl).1,
   (create_default_callback_never_pauses env0 g0 none rfl rfl).2 4⟩

/-- Counterexample to C3: on a fresh process, `LammpsWeb.create` resolves to
an instance whose run state is not Idle and whose `getIsRunning()` is not
false, because `create` invokes `instance.start()` during initialization. -/
theorem create_initial_idle_counterexample :
    ¬ ((LammpsWeb.create env0 g0 none).2.inst.runState = RunState.Idle ∧
       LammpsWeb.getIsRunning (LammpsWeb.create env0 g0 none).2 = false) := by
  intro h
  exact RunState.noConfusion h.1

/-- Claim C3 (amended): immediately after `LammpsWeb.create` resolves, the
run state is Running and `getIsRunning()` returns true, because `create`
calls `instance.start()` as part of initialization (starting from the
engine's Idle construction state). -/
theorem create_engine_running (env : EngineEnv) (g : GlobalState)
    (options : Option LammpsModuleOptions) :
    (LammpsWeb.create env g options).2.inst.runState = RunState.Running ∧
    LammpsWeb.getIsRunning (LammpsWeb.create env g options).2 = true :=
  ⟨rfl, rfl⟩

/-- Counterexample to C4: two consecutive `create` calls in one process both
succeed and leave two live engine instances — the second call does not fail
and the number of live instances is not at most one. -/
theorem single_engine_counterexample :
    (LammpsWeb.create env0 (LammpsWeb.create env0 g0 none).1 none).1.instances.length = 2 ∧
    ¬ ((LammpsWeb.create env0 (LammpsWeb.create env0 g0 none).1 none).1.instances.length ≤ 1) := by
  exact ⟨rfl, by decide⟩

/-- Claim C4 (amended): every `LammpsWeb.create` call constructs and starts a
fresh engine instance, never fails, and adds one more live instance to the
process — so nothing enforces at most one live engine instance. -/
theorem create_always_adds_instance (env : EngineEnv) (g : GlobalState)
    (options : Option LammpsModuleOptions) :
    (LammpsWeb.create env g options).1.instances.length = g.instances.length + 1 := by
  cases h : g.postStepCallback <;> simp [LammpsWeb.create, h]

theorem resolve_isOk_iff (ms : List Modifier) (name : String) :
    ((InternalLammpsWeb.resolve ms name).isOk = true ↔
      name ∈ InternalLammpsWeb.listNames ms) := by
  induction ms with
  | nil =>
      simp [InternalLammpsWeb.resolve, InternalLammpsWeb.listNames, List.find?, Except.isOk,
            Except.toBool]
  | cons m ms ih =>
      by_cases h : m.name = name
      · simp [InternalLammpsWeb.resolve, InternalLammpsWeb.listNames, List.find?, h,
              Except.isOk, Except.toBool]
      · have hb : (m.name == name) = false := by simp [h]
        have hne : ¬ name = m.name := fun e => h e.symm
        simp only [InternalLammpsWeb.resolve, InternalLammpsWeb.listNames, List.find?, hb,
                   List.map_cons, List.mem_cons] at ih ⊢
        simpa [hne] using ih

theorem resolve_remove (ms : List Modifier) (name : String) :
    InternalLammpsWeb.resolve (InternalLammpsWeb.removeFromRegistry ms name) name =
      Except.error LmpError.notFoundError := by
  induction ms with
  | nil => rfl
  | cons m ms ih =>
      by_cases h : m.name = name
      · have hb : (m.name != name) = false := by simp [h]
        simpa [InternalLammpsWeb.removeFromRegistry, List.filter, hb] using ih
      · have hb : (m.name != name) = true := by simp [h]
        have hb2 : (m.name == name) = false := by simp [h]
        simp only [InternalLammpsWeb.removeFromRegistry, List.filter, hb] at ih ⊢
        simpa [InternalLammpsWeb.resolve, List.find?, hb2] using ih

/-- Claim C5: for every modifier kind in {Compute, Fix, Variable} and every
name, resolving the modifier succeeds iff the name is in the current name
listing for that kind, and resolving a stale name after the modifier is
removed fails with `NotFoundError`. -/
theorem modifier_resolve_iff_listed (s : EngineState) (kind : ModifierKind)
    (name : String) :
    ((InternalLammpsWeb.getModifier s kind name).isOk = true ↔
      name ∈ InternalLammpsWeb.getModifierNames s kind) ∧
    InternalLammpsWeb.getModifier
        (InternalLammpsWeb.removeModifier s kind name) kind name =
      Except.error LmpError.notFoundError := by
  cases kind <;> exact ⟨resolve_isOk_iff _ _, resolve_remove _ _⟩

/-- Claim C6: `step()` called `n` times while Running, with the cooperative
callback requesting no pause in between (so no intervening transition), adds
exactly `n` to the value returned by `getTimesteps()`. -/
theorem step_running_adds_n (n : Nat) (s : EngineState)
    (h1 : s.runState = RunState.Running)
    (h2 : ∀ k, k < n → s.cb (s.cbCount + k) = false) :
    InternalLammpsWeb.getTimesteps (stepN n s) =
      InternalLammpsWeb.getTimesteps s + n := by
  induction n generalizing s with
  | zero => rfl
  | succ n ih =>
      obtain ⟨env, core, rs, ct, rtc, rtt, tps, cpu, wf, sf, bn, em, lc, cb, cbc⟩ := s
      simp only at h1 h2
      subst h1
      have h0 : cb cbc = false := by simpa using h2 0 (Nat.succ_pos n)
      have hstep : InternalLammpsWeb.step
          ⟨env, core, RunState.Running, ct, rtc, rtt, tps, cpu, wf, sf, bn, em, lc, cb, cbc⟩ =
          ⟨env, core, RunState.Running, ct + 1, rtc + 1, rtt, tps, cpu, wf, sf, bn, em, lc,
            cb, cbc + 1⟩ := by
        simp [InternalLammpsWeb.step, h0]
      have hrec := ih ⟨env, core, RunState.Running, ct + 1, rtc + 1, rtt, tps, cpu, wf, sf,
          bn, em, lc, cb, cbc + 1⟩ rfl ?_
      · show InternalLammpsWeb.getTimesteps (stepN n (InternalLammpsWeb.step _)) = _
        rw [hstep, hrec]
        simp [InternalLammpsWeb.getTimesteps]
        omega
      · intro k hk
        have he : cbc + 1 + k = cbc + (k + 1) := by omega
        simp only [he]
        exact h2 (k + 1) (by omega)

/-- Witness for C6: three manual steps from a concrete Running state. -/
theorem step_running_adds_n_witness :
    InternalLammpsWeb.getTimesteps (stepN 3 sRun) =
      InternalLammpsWeb.getTimesteps sRun + 3 :=
  step_running_adds_n 3 sRun rfl (fun _ _ => rfl)

/-- Claim C7: `step()` while Idle is a no-op — a total call that changes
nothing (so no exception is raised and no timestep is advanced) and leaves
the `getTimesteps()` counter unchanged. -/
theorem step_idle_noop (s : EngineState) (h : s.runState = RunState.Idle) :
    InternalLammpsWeb.step s = s ∧
    InternalLammpsWeb.getTimesteps (InternalLammpsWeb.step s) =
      InternalLammpsWeb.getTimesteps s := by
  have h1 : InternalLammpsWeb.step s = s := by
    simp [InternalLammpsWeb.step, h]
  exact ⟨h1, by rw [h1]⟩

/-- Witness for C7 at a concrete Idle instance. -/
theorem step_idle_noop_witness :
    InternalLammpsWeb.step sIdle = sIdle ∧
    InternalLammpsWeb.getTimesteps (InternalLammpsWeb.step sIdle) =
      InternalLammpsWeb.getTimesteps sIdle :=
  step_idle_noop sIdle rfl

/-- Claim C8: `runCommand(text)` is a total operation (it returns void and
never throws a structured exception); when the engine's interpreter reports a
failure, the engine's prior simulation content, run state and counters are
left intact and the failure is observable only by polling
`getErrorMessage()` and `getLastCommand()` afterwards. -/
theorem runCommand_failure_polling (s : EngineState) (text msg : String)
    (h : s.env.interp text s.core = Except.error msg) :
    (InternalLammpsWeb.runCommand s text).core = s.core ∧
    (InternalLammpsWeb.runCommand s text).runState = s.runState ∧
    (InternalLammpsWeb.runCommand s text).currentTimestep = s.currentTimestep ∧
    InternalLammpsWeb.getLastCommand (InternalLammpsWeb.runCommand s text) = text ∧
    InternalLammpsWeb.getErrorMessage (InternalLammpsWeb.runCommand s text) = msg := by
  simp [InternalLammpsWeb.runCommand, h, InternalLammpsWeb.getLastCommand,
        InternalLammpsWeb.getErrorMessage]

/-- Witness for C8 on a concrete instance whose interpreter rejects the
command with a fixed engine-reported message. -/
theorem runCommand_failure_polling_witness :
    (InternalLammpsWeb.runCommand sFail "fix bad").core = sFail.core ∧
    (InternalLammpsWeb.runCommand sFail "fix bad").runState = sFail.runState ∧
    (InternalLammpsWeb.runCommand sFail "fix bad").currentTimestep =
      sFail.currentTimestep ∧
    InternalLammpsWeb.getLastCommand (InternalLammpsWeb.runCommand sFail "fix bad") =
      "fix bad" ∧
    InternalLammpsWeb.getErrorMessage (InternalLammpsWeb.runCommand sFail "fix bad") =
      "ERROR: unknown command" :=
  runCommand_failure_polling sFail "fix bad" "ERROR: unknown command" rfl

/-- Claim C9: resolving an arena view for a kind the engine has not allocated
(for example the bond regions before `computeBonds()` has run) yields the
empty view — offset 0 and element count 0 — through a total function that
never faults. -/
theorem resolveView_unallocated_empty (s : EngineState) (kind : ViewKind)
    (h : InternalLammpsWeb.arenaLookup s.core.arena kind = none) :
    InternalLammpsWeb.resolveView s kind = (0, 0) := by
  simp [InternalLammpsWeb.resolveView, h]

/-- Witness for C9: the bond-position region of a freshly created instance,
before any `computeBonds()` call, resolves to the empty view. -/
theorem resolveView_unallocated_empty_witness :
    InternalLammpsWeb.resolveView (LammpsWeb.create env0 g0 none).2.inst
      ViewKind.BondPosition1 = (0, 0) :=
  resolveView_unallocated_empty _ _ rfl

theorem execMethod_forwards (e : EngineState) (op : LmpOp) :
    LammpsWeb.execMethod ⟨e⟩ op =
      ((⟨(InternalLammpsWeb.exec e op).1⟩ : LammpsWeb),
        (InternalLammpsWeb.exec e op).2) := by
  cases op <;> rfl

/-- Claim C10: every public instance method of the `LammpsWeb` wrapper
forwards its arguments unchanged to the same method of the single wrapped
`InternalLammpsWeb` instance and returns that call's result unchanged; since
the wrapper keeps no state other than the wrapped instance, any session of
method invocations on the wrapper produces exactly the outputs, and tracks
exactly the instance state, of the same session run directly on the wrapped
instance. -/
theorem wrapper_observably_equivalent (e : EngineState) (ops : List LmpOp) :
    (LammpsWeb.runOps ⟨e⟩ ops).1.inst = (InternalLammpsWeb.runOps e ops).1 ∧
    (LammpsWeb.runOps ⟨e⟩ ops).2 = (InternalLammpsWeb.runOps e ops).2 := by
  induction ops generalizing e with
  | nil => exact ⟨rfl, rfl⟩
  | cons op ops ih =>
      simp only [LammpsWeb.runOps, InternalLammpsWeb.runOps, execMethod_forwards]
      exact ⟨(ih _).1, by rw [(ih _).2]⟩

end LammpsJs
